import Mathlib

/-!
Verification of the mapenu-trail-hub elevation-fusion core.

Shallow embedding of the Python backend in Lean 4:
* machine floats are modelled as exact rationals (`ℚ`); the only places the
  source computes an irrational quantity (planar Euclidean lengths via
  `sqrt`) are modelled with `Real.sqrt`;
* Python lists become `List`, dicts with fixed keys become structures;
* external collaborators (database, file download, CRS reprojection via
  pyproj) are out of scope: functions receive their already-fetched /
  already-projected inputs as arguments, mirroring the data each source
  function consumes.
-/

namespace TrailHub

/-! ### `utils/calculations.py`: `calculate_trail_similarity`

A trail metrics record as consumed by `calculate_trail_similarity`
(`src/backend/utils/calculations.py`, lines 145-201).  The four mandatory
dict keys become fields; `surface_difficulty_score` is read with
`.get(key, 1.0)`, hence an `Option` field read through `getD`-style
defaulting. -/
structure TrailMetrics where
  distance : ℚ
  elevation_gain : ℚ
  difficulty_score : ℚ
  rolling_hills_index : ℚ
  surface_difficulty_score : Option ℚ := none
deriving DecidableEq

/-- Embedding of `calculate_trail_similarity` (utils/calculations.py 145-201,
identical copy in main.py 233-273): five closeness factors, each
`max(0, 1 - diff/window)`, weighted 0.25/0.25/0.20/0.15/0.15. -/
def calculateTrailSimilarity (trail1 trail2 : TrailMetrics) : ℚ :=
  let distance_diff := |trail1.distance - trail2.distance|
  let distance_similarity := max 0 (1 - distance_diff / 1000)
  let elevation_gain_diff := |trail1.elevation_gain - trail2.elevation_gain|
  let elevation_similarity := max 0 (1 - elevation_gain_diff / 500)
  let difficulty_diff := |trail1.difficulty_score - trail2.difficulty_score|
  let difficulty_similarity := max 0 (1 - difficulty_diff / 5)
  let rolling_hills_diff := |trail1.rolling_hills_index - trail2.rolling_hills_index|
  let rolling_similarity := max 0 (1 - rolling_hills_diff / (1/2))
  let surface1 := trail1.surface_difficulty_score.getD 1
  let surface2 := trail2.surface_difficulty_score.getD 1
  let surface_diff := |surface1 - surface2|
  let surface_similarity := max 0 (1 - surface_diff / (1/2))
  distance_similarity * (25/100)
    + elevation_similarity * (25/100)
    + difficulty_similarity * (20/100)
    + rolling_similarity * (15/100)
    + surface_similarity * (15/100)

/-! ### `utils/terrain_analysis.py`: `calculate_terrain_variety` -/

/-- Python `int(x)` truncation toward zero on a rational. -/
def truncQ (x : ℚ) : ℤ := if 0 ≤ x then ⌊x⌋ else ⌈x⌉

/-- Consecutive absolute elevation changes (the `elevation_changes` list of
`calculate_terrain_variety`). -/
def absChanges : List ℚ → List ℚ
  | [] => []
  | [_] => []
  | a :: b :: rest => |b - a| :: absChanges (b :: rest)

/-- Embedding of `calculate_terrain_variety`
(utils/terrain_analysis.py 47-83): series shorter than 10 points score 0;
otherwise count distinct 100 m bands (`int(elev/100)*100`), cap at 10, then
add +2 / +1 (capped at 10) if the mean absolute consecutive change exceeds
20 m / 10 m. -/
def calculateTerrainVariety (elevations : List ℚ) : ℕ :=
  if elevations.length < 10 then 0
  else
    let bands := (elevations.map (fun e => truncQ (e / 100) * 100)).dedup
    let variety_score := min bands.length 10
    let changes := absChanges elevations
    if changes.isEmpty then variety_score
    else
      let avg_change := changes.sum / (changes.length : ℚ)
      if 20 < avg_change then min (variety_score + 2) 10
      else if 10 < avg_change then min (variety_score + 1) 10
      else variety_score

/-! ### `utils/lidar_extraction.py`: absolute-coordinate extraction

A LiDAR point is `(x, y, z)` in the projected planar CRS (MGA56); the pyproj
reprojection of trail coordinates is an external collaborator, so the trail
arrives here already projected, as `(easting, northing)` pairs. -/

/-- Elevations of the cloud points within `radius` of `p`
(`kdtree.query_ball_point([x, y], r=search_radius)` followed by
`lidar_z[indices]`; scipy's ball query is the closed ball, so membership is
squared-distance `≤ radius²`). -/
def ballZ (cloud : List (ℚ × ℚ × ℚ)) (p : ℚ × ℚ) (radius : ℚ) : List ℚ :=
  (cloud.filter (fun q =>
    (q.1 - p.1) ^ 2 + (q.2.1 - p.2) ^ 2 ≤ radius ^ 2)).map (fun q => q.2.2)

/-- Minimum (`np.min`) over a (nonempty in every use) list of rationals; 0 on `[]`. -/
def minQ : List ℚ → ℚ
  | [] => 0
  | z :: zs => zs.foldl min z

/-- Maximum (`np.max`) over a (nonempty in every use) list of rationals; 0 on `[]`. -/
def maxQ : List ℚ → ℚ
  | [] => 0
  | z :: zs => zs.foldl max z

/-- The accumulator loop of `LiDARExtractor.extract_elevation_profile`
(utils/lidar_extraction.py 534-555): per trail point, append the minimum
in-radius elevation if the ball query is nonempty, else append the last
collected elevation — the source guard is `i > 0 and len(elevations) > 0`,
and at `i = 0` the accumulator is necessarily empty, so the guard is
equivalent to the accumulator being nonempty. -/
def extractAbsGo (cloud : List (ℚ × ℚ × ℚ)) (radius : ℚ) :
    List ℚ → List (ℚ × ℚ) → List ℚ
  | acc, [] => acc
  | acc, p :: ps =>
    let ns := ballZ cloud p radius
    if ns.isEmpty then
      if acc.isEmpty then extractAbsGo cloud radius acc ps
      else extractAbsGo cloud radius (acc ++ [acc.getLastD 0]) ps
    else extractAbsGo cloud radius (acc ++ [minQ ns]) ps

/-- Elevation list produced by the absolute-coordinate branch of
`extract_elevation_profile` for a trail (already projected to MGA56). -/
def extractAbs (cloud : List (ℚ × ℚ × ℚ)) (radius : ℚ)
    (trail : List (ℚ × ℚ)) : List ℚ :=
  extractAbsGo cloud radius [] trail

/-- Spec-side rendition of the claimed absolute-branch behaviour, following
the claim's words: a matched trail point contributes the minimum in-radius
elevation, an unmatched one repeats the previous output value, and (the
amendment) unmatched points before the first match are dropped because there
is no previous value to carry. -/
def carryExtract (cloud : List (ℚ × ℚ × ℚ)) (radius : ℚ) :
    Option ℚ → List (ℚ × ℚ) → List ℚ
  | _, [] => []
  | prev, p :: ps =>
    let ns := ballZ cloud p radius
    if ns.isEmpty then
      match prev with
      | none => carryExtract cloud radius none ps
      | some e => e :: carryExtract cloud radius (some e) ps
    else minQ ns :: carryExtract cloud radius (some (minQ ns)) ps

/-! ### `utils/lidar_extraction.py`: relative-coordinate branch -/

/-- A loaded LAS/LAZ file as consumed after `laspy.read`: header bounding
extent, the point records, and the optional per-point classification
attribute (parallel to `points`). -/
structure LasFile where
  xMin : ℚ
  xMax : ℚ
  yMin : ℚ
  yMax : ℚ
  points : List (ℚ × ℚ × ℚ)
  classification : Option (List ℕ) := none

/-- Ground filtering (utils/lidar_extraction.py 469-500 and 192-204): when a
classification attribute exists and at least one point is class 2 (ground),
keep only class-2 points; otherwise keep all points. -/
def groundFilter (pts : List (ℚ × ℚ × ℚ)) (cls : Option (List ℕ)) :
    List (ℚ × ℚ × ℚ) :=
  match cls with
  | none => pts
  | some cs =>
    if cs.any (fun c => c == 2) then
      ((pts.zip cs).filter (fun pc => pc.2 == 2)).map (fun pc => pc.1)
    else pts

/-- Sort the cloud along its dominant axis
(utils/lidar_extraction.py 220-234): by X when the X range is strictly
larger than the Y range, else by Y.  `np.argsort` leaves the order of ties
unspecified; the embedding fixes the stable order. -/
def sortDominant (pts : List (ℚ × ℚ × ℚ)) : List (ℚ × ℚ × ℚ) :=
  let xs := pts.map (fun p => p.1)
  let ys := pts.map (fun p => p.2.1)
  let xRange := maxQ xs - minQ xs
  let yRange := maxQ ys - minQ ys
  if yRange < xRange then pts.insertionSort (fun a b => a.1 ≤ b.1)
  else pts.insertionSort (fun a b => a.2.1 ≤ b.2.1)

/-- Per-segment minimum elevations (utils/lidar_extraction.py 236-251):
`num_samples` segments of `segment_size` points each, skipping start
indices past the end, taking `np.min` of each segment's elevations. -/
def segmentMins (sorted : List (ℚ × ℚ × ℚ)) (numSamples : ℕ) : List ℚ :=
  let n := sorted.length
  let segmentSize := max 1 (n / numSamples)
  (List.range numSamples).filterMap (fun i =>
    let start := i * segmentSize
    if start < n then
      some (minQ (((sorted.drop start).take segmentSize).map (fun p => p.2.2)))
    else none)

/-- Embedding of `np.linspace(0, n-1, m, dtype=int)`: `m` evenly spaced values from 0 to
`n-1`, truncated to integers (the values are nonnegative, so truncation is
the floor). -/
def linspaceIdx (n m : ℕ) : List ℕ :=
  if m ≤ 1 then List.range m
  else (List.range m).map (fun j =>
    (⌊(j * (n - 1) : ℚ) / ((m : ℚ) - 1)⌋).toNat)

/-- Planar Euclidean distance between two cloud points
(`np.sqrt(dx**2 + dy**2)`). -/
noncomputable def planarDist (p q : ℚ × ℚ × ℚ) : ℝ :=
  Real.sqrt (((q.1 - p.1 : ℚ) : ℝ) ^ 2 + ((q.2.1 - p.2.1 : ℚ) : ℝ) ^ 2)

/-- Cumulative distances over the representative points
(utils/lidar_extraction.py 256-272), converted to kilometres. -/
noncomputable def cumulativeKm (reps : List (ℚ × ℚ × ℚ)) : List ℝ :=
  (List.range reps.length).map (fun i =>
    ((((reps.take (i + 1)).zip ((reps.take (i + 1)).tail)).map
      (fun pq => planarDist pq.1 pq.2)).sum) / 1000)

/-- The profile dict returned by `_extract_profile_from_relative_lidar`. -/
structure RelProfile where
  elevations : List ℚ
  distancesKm : List ℝ
  coordinates : List (ℚ × ℚ)
  coveragePercent : ℚ
  searchRadius : ℚ
  totalPoints : ℕ
  note : String

/-- Embedding of `LiDARExtractor._extract_profile_from_relative_lidar`
(utils/lidar_extraction.py 174-292): ground-filter, sort along the dominant
axis, take the per-segment minimum elevation for
`N = min(len(trail_coords), 200)` segments, and build cumulative planar
distances between the `linspace`-chosen representative points. -/
noncomputable def relativeLidarExtract (file : LasFile)
    (trail : List (ℚ × ℚ)) : RelProfile :=
  let pts := groundFilter file.points file.classification
  let numSamples := min trail.length 200
  let sorted := sortDominant pts
  let sampled := segmentMins sorted numSamples
  let idxs := linspaceIdx sorted.length sampled.length
  let reps := idxs.filterMap (fun i => sorted[i]?)
  { elevations := sampled
    distancesKm := cumulativeKm reps
    coordinates := trail.take numSamples
    coveragePercent := 100
    searchRadius := 0
    totalPoints := pts.length
    note := "LiDAR uses relative coordinates - profile generated from LiDAR spatial extent" }

/-- The profile dict returned by the absolute-coordinate branch of
`extract_elevation_profile` (utils/lidar_extraction.py 562-570). -/
structure AbsProfile where
  elevations : List ℚ
  coveragePercent : ℚ
  searchRadius : ℚ
  totalPoints : ℕ

/-- Result of `extract_elevation_profile` after a successful file load,
tagged by which branch produced it; the two branches return observably
different dicts (the relative one carries the "relative coordinates" note
that `routes/analysis.py` later inspects, the absolute one the real search
radius). -/
inductive ExtractResult where
  | relative (prof : RelProfile)
  | absolute (prof : AbsProfile)

/-- The relative-coordinate heuristic (utils/lidar_extraction.py 505-513):
all four header extent values have absolute value strictly below 1000. -/
def isRelativeCoords (file : LasFile) : Prop :=
  |file.xMin| < 1000 ∧ |file.xMax| < 1000 ∧ |file.yMin| < 1000 ∧ |file.yMax| < 1000

instance (file : LasFile) : Decidable (isRelativeCoords file) := by
  unfold isRelativeCoords; infer_instance

/-- Embedding of `LiDARExtractor.extract_elevation_profile`
(utils/lidar_extraction.py 461-570) from the point where the LAS file is
loaded: ground-filter, inspect the header extent, and route to the
relative-coordinate profile or to the absolute k-d-tree matching loop
(the trail again arrives already projected to MGA56). -/
noncomputable def extractElevationProfile (file : LasFile)
    (trail : List (ℚ × ℚ)) (searchRadius : ℚ) : ExtractResult :=
  let pts := groundFilter file.points file.classification
  if isRelativeCoords file then
    ExtractResult.relative (relativeLidarExtract file trail)
  else
    let elevations := extractAbs pts searchRadius trail
    ExtractResult.absolute
      { elevations := elevations
        coveragePercent :=
          if trail.isEmpty then 0
          else (elevations.length : ℚ) / (trail.length : ℚ) * 100
        searchRadius := searchRadius
        totalPoints := pts.length }

/-! ### `utils/lidar_extraction.py`: point-cloud matcher -/

/-- Planar bounding rectangle. -/
structure BBox where
  minX : ℚ
  maxX : ℚ
  minY : ℚ
  maxY : ℚ
deriving DecidableEq

def BBox.area (b : BBox) : ℚ := (b.maxX - b.minX) * (b.maxY - b.minY)

/-- One `lidar_files` catalog row as read by `find_matching_lidar_file`:
an optional direct trail association, and the four stored bounds — a record
is skipped when any of them is missing (`None in (min_x, ...)`), modelled by
an `Option BBox`. -/
structure LidarRecord where
  id : ℕ
  trailId : Option ℤ := none
  bounds : Option BBox := none
deriving DecidableEq

/-- Overlap fraction of the trail bbox covered by the record bbox:
intersection area divided by trail-bbox area
(utils/lidar_extraction.py 364-382). -/
def overlapFrac (tb lb : BBox) : ℚ :=
  let overlapX := max 0 (min tb.maxX lb.maxX - max tb.minX lb.minX)
  let overlapY := max 0 (min tb.maxY lb.maxY - max tb.minY lb.minY)
  overlapX * overlapY / tb.area

/-- Bounding box of a (nonempty in every use) projected coordinate list
(utils/lidar_extraction.py 327-335); degenerate zero box on `[]`. -/
def bboxOfCoords : List (ℚ × ℚ) → BBox
  | [] => ⟨0, 0, 0, 0⟩
  | c :: cs =>
    cs.foldl (fun b p =>
      ⟨min b.minX p.1, max b.maxX p.1, min b.minY p.2, max b.maxY p.2⟩)
      ⟨c.1, c.1, c.2, c.2⟩

/-- One iteration of the matcher's scoring loop
(utils/lidar_extraction.py 341-402): skip records without stored bounds,
skip scoring when the trail bbox has zero area, otherwise update the
`(best_match, best_overlap)` pair on a strictly larger ratio. -/
def matchStep (tb : BBox) (st : Option LidarRecord × ℚ) (r : LidarRecord) :
    Option LidarRecord × ℚ :=
  match r.bounds with
  | none => st
  | some lb =>
    if 0 < tb.area then
      if st.2 < overlapFrac tb lb then (some r, overlapFrac tb lb) else st
    else st

/-- The maximum overlap fraction over the catalog records with known bounds
(starting from the loop's initial `best_overlap = 0`). -/
def maxFrac (tb : BBox) (files : List LidarRecord) : ℚ :=
  files.foldl (fun a r =>
    match r.bounds with
    | none => a
    | some lb => max a (overlapFrac tb lb)) 0

/-- The final selection after the scoring loop
(utils/lidar_extraction.py 404-416): the tracked best record, if any, and
only when its overlap strictly exceeds the 2% threshold. -/
def selectBest (best : Option LidarRecord × ℚ) : Option LidarRecord :=
  match best.1 with
  | some r => if 1/50 < best.2 then some r else none
  | none => none

/-- The overlap fraction a record scores against the trail bbox (0 for a
record without stored bounds, which the loop never selects). -/
def fracOf (tb : BBox) (r : LidarRecord) : ℚ :=
  match r.bounds with
  | none => 0
  | some lb => overlapFrac tb lb

/-- Embedding of `LiDARExtractor.find_matching_lidar_file`
(utils/lidar_extraction.py 294-416): empty catalog yields `None`; a record
directly associated with the requested `trail_id` is returned immediately;
otherwise the best-overlap record is returned when its ratio strictly
exceeds the 2% threshold. -/
def findMatchingLidarFile (files : List LidarRecord)
    (coords : List (ℚ × ℚ)) (trailId : Option ℤ) : Option LidarRecord :=
  if files.isEmpty then none
  else
    match
      (match trailId with
        | some t => files.find? (fun r => r.trailId == some t)
        | none => none) with
    | some r => some r
    | none =>
      selectBest (files.foldl (matchStep (bboxOfCoords coords)) (none, 0))

/-! ### `routes/analysis.py`: `get_trail_elevation_sources`

The pure post-processing core of the multi-source endpoint: survey (XLSX)
cleanup, the Overall average, per-source slope derivation, and the final
baseline alignment.  Database reads, HTTP downloads and spreadsheet parsing
are external collaborators; each stage receives the data the source code
has at that program point. -/

/-- Python `round(x, 2)`: two-decimal rounding.  (CPython rounds exact
half-cent floats to even; the embedding rounds them half-up — the two agree
everywhere else, and no half-cent value occurs in any statement below.) -/
def roundQ2 (x : ℚ) : ℚ := (round (100 * x) : ℤ) / 100

/-- The final per-source baseline alignment
(routes/analysis.py 1000-1025): with the GPX starting elevation as baseline,
compute `offset = gpx_start - series_start`; when `|offset| > 0.1`, replace
every value by `round(value + offset + random.uniform(-1.1, 1.1), 2)` —
the `random.uniform` draws are modelled by the explicit `noise` list —
otherwise only round every value. -/
def alignSeries (gpxStart : ℚ) (elevs : List ℚ) (noise : List ℚ) : List ℚ :=
  match elevs with
  | [] => []
  | e0 :: _ =>
    let offset := gpxStart - e0
    if 1/10 < |offset| then
      (elevs.zip noise).map (fun en => roundQ2 (en.1 + offset + en.2))
    else elevs.map roundQ2

/-- One elevation source entry of the endpoint's `sources` dict, at the
point where the Overall average is built: availability flag and the
parallel elevation/distance arrays; `slopes` is `[]` until (and unless) the
slope pass adds it. -/
structure SourceData where
  available : Bool
  elevations : List ℚ
  distances : List ℚ
  slopes : List ℚ
deriving DecidableEq

/-- The Overall averaged series (routes/analysis.py 941-969): truncate to
the shortest available elevation length, average point-by-point, and pair
with the trail's own cumulative distances `distances_km[:min_length]`. -/
def mkOverall (srcs : List SourceData) (distancesKm : List ℚ) : SourceData :=
  match srcs.filter (fun s => s.available) with
  | [] => ⟨false, [], [], []⟩
  | a :: rest =>
    let minLength := rest.foldl (fun m s => min m s.elevations.length)
      a.elevations.length
    let overall := (List.range minLength).map (fun i =>
      let avail := a :: rest
      (avail.map (fun s => s.elevations.getD i 0)).sum / (avail.length : ℚ))
    ⟨true, overall, distancesKm.take minLength, []⟩

/-- The slope loop body (routes/analysis.py 981-996): walk consecutive
(elevation, metre-distance) pairs; when the distance delta strictly exceeds
1 mm, append the percent slope clamped to [-200, 200]; otherwise repeat the
previous slope (or 0 if none). -/
def slopesAux : ℚ → ℚ → List (ℚ × ℚ) → List ℚ → List ℚ
  | _, _, [], acc => acc
  | pe, pd, ed :: rest, acc =>
    let distChange := ed.2 - pd
    let s :=
      if 1/1000 < distChange then
        max (-200) (min 200 ((ed.1 - pe) / distChange * 100))
      else acc.getLastD 0
    slopesAux ed.1 ed.2 rest (acc ++ [s])

/-- The per-source slope pass (routes/analysis.py 971-998): only available
sources with more than one elevation get a slope array; elevations and
metre-converted distances are truncated to a common length for the loop
(the stored elevation/distance arrays are left untouched), and a leading 0
is inserted. -/
def computeSlopes (s : SourceData) : SourceData :=
  if s.available ∧ 1 < s.elevations.length then
    let distancesM := s.distances.map (fun d => d * 1000)
    let minLength := min s.elevations.length distancesM.length
    let elevs := s.elevations.take minLength
    let dists := distancesM.take minLength
    match elevs.zip dists with
    | [] => { s with slopes := [0] }
    | ed0 :: rest => { s with slopes := 0 :: slopesAux ed0.1 ed0.2 rest [] }
  else s

/-- Overall construction followed by the slope pass, in source order
(routes/analysis.py 941-998): the Overall entry is appended to the sources
and then every entry gets its slopes. -/
def sourcesPipeline (srcs : List SourceData) (distancesKm : List ℚ) :
    List SourceData :=
  (srcs ++ [mkOverall srcs distancesKm]).map computeSlopes

/-! #### Survey (XLSX) cleanup, routes/analysis.py 714-762 -/

/-- Embedding of `combined_data.sort(key=lambda x: x[0])`: stable sort of the
(distance, elevation) rows by distance. -/
def sortRows (rows : List (ℚ × ℚ)) : List (ℚ × ℚ) :=
  rows.insertionSort (fun a b => a.1 ≤ b.1)

/-- Deduplication (routes/analysis.py 719-728): keep a row only when its
distance strictly exceeds the previously kept distance plus the 0.001 km
tolerance. -/
def dedupRows : Option ℚ → List (ℚ × ℚ) → List (ℚ × ℚ)
  | _, [] => []
  | none, de :: rest => de :: dedupRows (some de.1) rest
  | some p, de :: rest =>
    if p + 1/1000 < de.1 then de :: dedupRows (some de.1) rest
    else dedupRows (some p) rest

/-- Consecutive distance gaps of the kept rows
(routes/analysis.py 732-737). -/
def gapsOf (rows : List (ℚ × ℚ)) : List ℚ :=
  (rows.zip rows.tail).map (fun pq => pq.2.1 - pq.1.1)

/-- Embedding of `np.median`: middle element of the sorted values, or the mean of the two
middle elements for an even count; 0 on `[]` (never reached: the source
guards with `if gaps:`). -/
def medianQ (l : List ℚ) : ℚ :=
  let s := l.insertionSort (fun a b => a ≤ b)
  let n := s.length
  if n = 0 then 0
  else if n % 2 = 1 then s.getD (n / 2) 0
  else (s.getD (n / 2 - 1) 0 + s.getD (n / 2) 0) / 2

/-- Abnormal-gap truncation (routes/analysis.py 730-762): with threshold
`max(10 * median_gap, 0.1)`, cut the kept rows just before the first gap
strictly exceeding the threshold. -/
def gapCut (rows : List (ℚ × ℚ)) : List (ℚ × ℚ) :=
  if rows.length ≤ 1 then rows
  else if (gapsOf rows).isEmpty then rows
  else
    match (gapsOf rows).findIdx?
        (fun g => decide (max (10 * medianQ (gapsOf rows)) (1/10) < g)) with
    | none => rows
    | some i => rows.take (i + 1)

/-- The survey cleanup chain of `get_trail_elevation_sources`
(routes/analysis.py 714-762): sort rows by distance, deduplicate, truncate
at the first abnormal gap.  (The later `max_xlsx_distance` truncation
against the trail's own length, lines 764-790, is a separate stage outside
the claims below.) -/
def surveyClean (rows : List (ℚ × ℚ)) : List (ℚ × ℚ) :=
  gapCut (dedupRows none (sortRows rows))

/-! ### `utils/real_dem_analysis.py`: raster profile extraction

`RealDEMAnalyzer.extract_elevation_profile` works on coordinates projected
to the planar CRS (the pyproj call is an external collaborator, so the
coordinates arrive already projected); shapely's polyline length and
interpolation are planar Euclidean geometry, modelled over `ℝ`. -/

/-- Planar segment length between two projected points. -/
noncomputable def segLen (p q : ℚ × ℚ) : ℝ :=
  Real.sqrt (((q.1 - p.1 : ℚ) : ℝ) ^ 2 + ((q.2 - p.2 : ℚ) : ℝ) ^ 2)

/-- Embedding of `LineString(...).length`: total planar length of the polyline. -/
noncomputable def lineLength : List (ℚ × ℚ) → ℝ
  | [] => 0
  | [_] => 0
  | p :: q :: rest => segLen p q + lineLength (q :: rest)

/-- Embedding of `LineString(...).interpolate(d)`: the point at arc distance `d` along
the polyline (clamped to the last vertex past the end). -/
noncomputable def interpolatePt : List (ℚ × ℚ) → ℝ → ℝ × ℝ
  | [], _ => (0, 0)
  | [p], _ => ((p.1 : ℚ), (p.2 : ℚ))
  | p :: q :: rest, d =>
    let s := segLen p q
    if d ≤ s then
      let t := if s = 0 then 0 else d / s
      (((p.1 : ℚ) : ℝ) + t * (((q.1 : ℚ) : ℝ) - ((p.1 : ℚ) : ℝ)),
       ((p.2 : ℚ) : ℝ) + t * (((q.2 : ℚ) : ℝ) - ((p.2 : ℚ) : ℝ)))
    else interpolatePt (q :: rest) (d - s)

/-- Embedding of `np.arange(0, stop, 10)`: multiples of 10 below `stop`
(`⌈stop/10⌉` of them, none for nonpositive `stop`). -/
noncomputable def arange10 (stop : ℝ) : List ℝ :=
  (List.range ⌈stop / 10⌉₊).map (fun k => (k : ℝ) * 10)

/-- One gridded-elevation tile: planar bounds, the affine-transform
resolutions used by `dataset.index`, the pixel grid (as a function of
row/column), and the no-data sentinel. -/
structure DemTile where
  left : ℚ
  right : ℚ
  bottom : ℚ
  top : ℚ
  resX : ℚ
  resY : ℚ
  width : ℕ
  height : ℕ
  px : ℤ → ℤ → ℚ
  nodata : ℚ

/-- Embedding of `_find_relevant_dem_tiles` (real_dem_analysis.py 38-67): tiles whose
bounds intersect the trail's bounding box. -/
def findRelevantTiles (tiles : List DemTile) (coords : List (ℚ × ℚ)) :
    List DemTile :=
  let xs := coords.map (fun c => c.1)
  let ys := coords.map (fun c => c.2)
  tiles.filter (fun t =>
    decide (minQ xs ≤ t.right) && decide (t.left ≤ maxQ xs)
      && decide (minQ ys ≤ t.top) && decide (t.bottom ≤ maxQ ys))

/-- One sample attempt of the tile loop (real_dem_analysis.py 96-126): point
inside the tile bounds, row/column from the affine transform
(`dataset.index`, i.e. floor of the offset over the resolution), row/column
inside the raster, pixel different from the no-data sentinel. -/
noncomputable def demSampleOne (t : DemTile) (xy : ℝ × ℝ) : Option ℚ :=
  if (t.left : ℝ) ≤ xy.1 ∧ xy.1 ≤ (t.right : ℝ)
      ∧ (t.bottom : ℝ) ≤ xy.2 ∧ xy.2 ≤ (t.top : ℝ) then
    let row := ⌊((t.top : ℝ) - xy.2) / (t.resY : ℝ)⌋
    let col := ⌊(xy.1 - (t.left : ℝ)) / (t.resX : ℝ)⌋
    if 0 ≤ row ∧ row < t.height ∧ 0 ≤ col ∧ col < t.width then
      if t.px row col ≠ t.nodata then some (t.px row col) else none
    else none
  else none

/-- The 10 m sample points of the trail line
(real_dem_analysis.py 86-90). -/
noncomputable def demSamplePoints (coords : List (ℚ × ℚ)) : List (ℝ × ℝ) :=
  (arange10 (lineLength coords)).map (interpolatePt coords)

/-- Embedding of `RealDEMAnalyzer.extract_elevation_profile`
(real_dem_analysis.py 70-133) up to the elevation list: no intersecting
tile or no valid sample yields the error dict (`none`); otherwise, for each
relevant tile in order and each 10 m sample point in order, the valid
pixel reads are appended. -/
noncomputable def demExtractElevations (tiles : List DemTile)
    (coords : List (ℚ × ℚ)) : Option (List ℚ) :=
  let relevant := findRelevantTiles tiles coords
  if relevant.isEmpty then none
  else
    let samples := demSamplePoints coords
    let elevations := relevant.flatMap (fun t => samples.filterMap (demSampleOne t))
    if elevations.isEmpty then none else some elevations

/-! ## Theorems -/

/-- C9: trail similarity is symmetric — `similarity(A,B) = similarity(B,A)`
for all trail metric records — and reflexively maximal:
`similarity(A,A) = 1` exactly (so within any floating tolerance). -/
theorem C9_similarity_symmetric_reflexive (A B : TrailMetrics) :
    calculateTrailSimilarity A B = calculateTrailSimilarity B A ∧
      calculateTrailSimilarity A A = 1 := by
  constructor
  · simp only [calculateTrailSimilarity, abs_sub_comm]
  · simp [calculateTrailSimilarity]
    norm_num

/-- C10: the terrain-variety score is 0 for every elevation series with
fewer than 10 points, however varied the elevations are; only longer series
reach the band count and elevation-change bonus. -/
theorem C10_terrain_variety_short_series_zero (elevations : List ℚ)
    (h : elevations.length < 10) : calculateTerrainVariety elevations = 0 := by
  unfold calculateTerrainVariety
  rw [if_pos h]

/-- C10 witness: a 9-point series visiting 9 distinct 100 m bands with huge
consecutive changes still scores 0. -/
theorem C10_terrain_variety_witness :
    ([0, 100, 200, 300, 400, 500, 600, 700, 800] : List ℚ).length < 10 ∧
      calculateTerrainVariety [0, 100, 200, 300, 400, 500, 600, 700, 800] = 0 :=
  ⟨by decide,
    C10_terrain_variety_short_series_zero
      [0, 100, 200, 300, 400, 500, 600, 700, 800] (by decide)⟩

/-- C4: at the claim's inputs (distance 5.0/5.5 km, elevation gain
200/220 m, difficulty 6.5/6.8, rolling-hills index 0.5/0.55, surface
difficulty defaulted) the code returns 0.962875, strictly greater than
0.95 — not strictly between 0.8 and 0.95 as the claim (and the repository's
own test `test_similar_trails`) requires.  Trail distances are stored in
kilometres, but the closeness window divides the difference by 1000, so the
intended ±1 km window is effectively ±1000 km. -/
theorem C4_similarity_test_inputs_exceed_bound :
    calculateTrailSimilarity
        ⟨5, 200, 13/2, 1/2, none⟩ ⟨11/2, 220, 34/5, 11/20, none⟩
      = 7703/8000 ∧ (95/100 : ℚ) < 7703/8000 := by
  constructor
  · norm_num [calculateTrailSimilarity, abs_of_nonneg]
  · norm_num

/-- Two-decimal rounding moves a value by at most half a cent. -/
lemma roundQ2_close (x : ℚ) : |roundQ2 x - x| ≤ 1/200 := by
  unfold roundQ2
  have h := abs_sub_round (100 * x)
  rw [abs_sub_comm] at h
  have heq : (round (100 * x) : ℚ) / 100 - x = ((round (100 * x) : ℚ) - 100 * x) / 100 := by
    ring
  rw [heq, abs_div, abs_of_pos (show (0:ℚ) < 100 by norm_num)]
  linarith

/-- Reading `getD` through `zip`-then-`map` picks the pointwise image. -/
lemma zip_map_getD (f : ℚ × ℚ → ℚ) :
    ∀ (l1 l2 : List ℚ) (i : ℕ), i < l1.length → i < l2.length →
      ((l1.zip l2).map f).getD i 0 = f (l1.getD i 0, l2.getD i 0) := by
  intro l1
  induction l1 with
  | nil => intro l2 i h1 _; simp at h1
  | cons a l1 ih =>
    intro l2 i h1 h2
    cases l2 with
    | nil => simp at h2
    | cons b l2 =>
      cases i with
      | zero => simp
      | succ i =>
        simp only [List.zip_cons_cons, List.map_cons, List.getD_cons_succ]
        exact ih l2 i (Nat.lt_of_succ_lt_succ h1) (Nat.lt_of_succ_lt_succ h2)

/-- C1 counterexample: GPX baseline 100 m, source series `[90]`,
noise draw 1 (within `random.uniform(-1.1, 1.1)`): the aligned first value
is 101 m — 1 m away from the baseline, far outside the 0.1 m tolerance —
and the series is not the constant-offset shift `[100]` either. -/
theorem C1_alignment_counterexample :
    alignSeries 100 [90] [1] = [101] ∧
      ¬ |(alignSeries 100 [90] [1]).getD 0 0 - 100| ≤ 1/10 ∧
      alignSeries 100 [90] [1] ≠ [90 + (100 - 90)] := by
  have h : alignSeries 100 [90] [1] = [101] := by
    simp only [alignSeries]
    rw [if_pos (by norm_num : (1:ℚ)/10 < |(100:ℚ) - 90|)]
    norm_num [roundQ2, round_eq]
  refine ⟨h, ?_, ?_⟩
  · rw [h]; norm_num
  · rw [h]; norm_num

/-- C1 amended: for a non-Track series with a non-trivial starting offset
(`|offset| > 0.1`), every aligned value equals the original value plus the
constant offset up to the injected per-value noise (at most 1.1 m) and the
two-decimal rounding, hence lies within 1.105 m of the constant-offset
shift; in particular the first aligned value is within 1.105 m of the Track
baseline — not within 0.1 m, and the shift is not exactly constant. -/
theorem C1_alignment_within_noise_bound (gpxStart e0 : ℚ) (rest noise : List ℚ)
    (hlen : noise.length = (e0 :: rest).length)
    (hnoise : ∀ n ∈ noise, |n| ≤ 11/10)
    (hoff : 1/10 < |gpxStart - e0|) :
    |(alignSeries gpxStart (e0 :: rest) noise).getD 0 0 - gpxStart| ≤ 221/200 ∧
      ∀ i < (e0 :: rest).length,
        |(alignSeries gpxStart (e0 :: rest) noise).getD i 0
          - ((e0 :: rest).getD i 0 + (gpxStart - e0))| ≤ 221/200 := by
  have key : ∀ i < (e0 :: rest).length,
      |(alignSeries gpxStart (e0 :: rest) noise).getD i 0
        - ((e0 :: rest).getD i 0 + (gpxStart - e0))| ≤ 221/200 := by
    intro i hi
    simp only [alignSeries]
    rw [if_pos hoff]
    rw [zip_map_getD _ _ _ i hi (hlen ▸ hi)]
    set e := (e0 :: rest).getD i 0 with he
    set n := noise.getD i 0 with hn
    have hmem : n ∈ noise := by
      rw [hn, List.getD_eq_getElem noise 0 (hlen ▸ hi)]
      exact List.getElem_mem _
    have hb := hnoise n hmem
    have hr := roundQ2_close (e + (gpxStart - e0) + n)
    have : roundQ2 (e + (gpxStart - e0) + n) - (e + (gpxStart - e0)) =
        (roundQ2 (e + (gpxStart - e0) + n) - (e + (gpxStart - e0) + n)) + n := by
      ring
    rw [this]
    calc |(roundQ2 (e + (gpxStart - e0) + n) - (e + (gpxStart - e0) + n)) + n|
        ≤ |roundQ2 (e + (gpxStart - e0) + n) - (e + (gpxStart - e0) + n)| + |n| :=
          abs_add _ _
      _ ≤ 1/200 + 11/10 := add_le_add hr hb
      _ = 221/200 := by norm_num
  refine ⟨?_, key⟩
  have h0 := key 0 (by simp)
  simpa using h0

/-- C1 witness: baseline 100 m, series `[90, 92]`, noise `[1, -1]`. -/
theorem C1_alignment_witness :
    (([1, -1] : List ℚ).length = ([90, 92] : List ℚ).length ∧
        (∀ n ∈ ([1, -1] : List ℚ), |n| ≤ 11/10) ∧ 1/10 < |(100 : ℚ) - 90|) ∧
      (|(alignSeries 100 [90, 92] [1, -1]).getD 0 0 - 100| ≤ 221/200 ∧
        ∀ i < ([90, 92] : List ℚ).length,
          |(alignSeries 100 [90, 92] [1, -1]).getD i 0
            - (([90, 92] : List ℚ).getD i 0 + (100 - 90))| ≤ 221/200) :=
  ⟨⟨by decide, by norm_num, by norm_num⟩,
    C1_alignment_within_noise_bound 100 90 [92] [1, -1]
      (by decide) (by norm_num) (by norm_num)⟩

/-- Once the accumulator is nonempty, the absolute-branch loop appends one
output per remaining trail point, carrying the last output forward. -/
lemma extractAbsGo_nonempty (cloud : List (ℚ × ℚ × ℚ)) (radius : ℚ) :
    ∀ (l : List (ℚ × ℚ)) (acc : List ℚ), acc ≠ [] →
      extractAbsGo cloud radius acc l =
        acc ++ carryExtract cloud radius (some (acc.getLastD 0)) l := by
  intro l
  induction l with
  | nil => intro acc _; simp [extractAbsGo, carryExtract]
  | cons p ps ih =>
    intro acc hacc
    simp only [extractAbsGo, carryExtract]
    by_cases hns : (ballZ cloud p radius).isEmpty
    · rw [if_pos hns, if_pos hns]
      rw [if_neg (by simpa using hacc)]
      rw [ih (acc ++ [acc.getLastD 0]) (by simp)]
      rw [List.getLastD_concat]
      simp
    · rw [if_neg hns, if_neg hns]
      rw [ih (acc ++ [minQ (ballZ cloud p radius)]) (by simp)]
      rw [List.getLastD_concat]
      simp

/-- The carry loop emits exactly one elevation per trail point once a carry
value exists. -/
lemma carryExtract_some_length (cloud : List (ℚ × ℚ × ℚ)) (radius : ℚ) :
    ∀ (l : List (ℚ × ℚ)) (e : ℚ),
      (carryExtract cloud radius (some e) l).length = l.length := by
  intro l
  induction l with
  | nil => intro e; simp [carryExtract]
  | cons p ps ih =>
    intro e
    simp only [carryExtract]
    by_cases hns : (ballZ cloud p radius).isEmpty
    · rw [if_pos hns]; simp [ih]
    · rw [if_neg hns]; simp [ih]

/-- C2 counterexample: a cloud with a single point near the second of two
trail points.  The first trail point has no in-radius neighbour and no
previous elevation, so it is dropped — the output has 1 elevation for 2
input coordinates, so the claimed length equality fails. -/
theorem C2_absolute_branch_counterexample :
    extractAbs [(10, 0, 5)] 2 [(0, 0), (10, 0)] = [5] ∧
      ¬ (extractAbs [(10, 0, 5)] 2 [(0, 0), (10, 0)]).length
          = ([(0, 0), (10, 0)] : List (ℚ × ℚ)).length := by
  have hball0 : ballZ [(10, 0, 5)] (0, 0) 2 = [] := by
    simp only [ballZ, List.filter]
    norm_num
  have hball1 : ballZ [(10, 0, 5)] (10, 0) 2 = [5] := by
    simp only [ballZ, List.filter]
    norm_num
  have h : extractAbs [(10, 0, 5)] 2 [(0, 0), (10, 0)] = [5] := by
    simp only [extractAbs, extractAbsGo, hball0, hball1]
    simp [minQ]
  exact ⟨h, by rw [h]; simp⟩

/-- C2 amended: provided the first trail point has at least one cloud point
within the search radius, the absolute branch emits exactly one elevation
per trail coordinate — the minimum in-radius elevation for matched points,
the previous output carried forward for unmatched ones (`carryExtract` is
the claim's description verbatim); without that proviso, leading unmatched
points are dropped. -/
theorem C2_absolute_branch_lengths (cloud : List (ℚ × ℚ × ℚ)) (radius : ℚ)
    (p : ℚ × ℚ) (ps : List (ℚ × ℚ))
    (h : (ballZ cloud p radius).isEmpty = false) :
    extractAbs cloud radius (p :: ps) = carryExtract cloud radius none (p :: ps) ∧
      (extractAbs cloud radius (p :: ps)).length = (p :: ps).length := by
  have hmain : extractAbs cloud radius (p :: ps) =
      minQ (ballZ cloud p radius) ::
        carryExtract cloud radius (some (minQ (ballZ cloud p radius))) ps := by
    simp only [extractAbs, extractAbsGo, h, Bool.false_eq_true, if_false,
      List.nil_append]
    rw [extractAbsGo_nonempty cloud radius ps [minQ (ballZ cloud p radius)]
      (by simp)]
    simp
  constructor
  · rw [hmain]
    simp only [carryExtract, h, Bool.false_eq_true, if_false]
  · rw [hmain]
    simp [carryExtract_some_length]

/-- C2 witness: one cloud point sitting on the first of two trail points. -/
theorem C2_absolute_branch_witness :
    (ballZ [(0, 0, 7)] (0, 0) 2).isEmpty = false ∧
      (extractAbs [(0, 0, 7)] 2 [(0, 0), (5, 5)]
          = carryExtract [(0, 0, 7)] 2 none [(0, 0), (5, 5)] ∧
        (extractAbs [(0, 0, 7)] 2 [(0, 0), (5, 5)]).length
          = ([(0, 0), (5, 5)] : List (ℚ × ℚ)).length) := by
  have hb : (ballZ [(0, 0, 7)] (0, 0) 2).isEmpty = false := by
    simp only [ballZ, List.filter]
    norm_num
  exact ⟨hb, C2_absolute_branch_lengths [(0, 0, 7)] 2 (0, 0) [(5, 5)] hb⟩

/-- There is one gap per consecutive pair of kept rows. -/
lemma gapsOf_length (l : List (ℚ × ℚ)) : (gapsOf l).length = l.length - 1 := by
  simp [gapsOf]

/-- The `findIdx?` search returns the position of the first satisfying element. -/
lemma findIdx?_first (p : ℚ → Bool) :
    ∀ (l : List ℚ) (j : ℕ), j < l.length → p (l.getD j 0) = true →
      (∀ k, k < j → p (l.getD k 0) = false) → l.findIdx? p = some j := by
  intro l
  induction l with
  | nil => intro j hj _ _; simp at hj
  | cons a l ih =>
    intro j hj hpj hfirst
    cases j with
    | zero =>
      simp only [List.getD_cons_zero] at hpj
      simp [List.findIdx?_cons, hpj]
    | succ j =>
      have hpa : p a = false := by
        have := hfirst 0 (Nat.succ_pos j)
        simpa using this
      simp only [List.findIdx?_cons, hpa, Bool.false_eq_true, if_false,
        List.findIdx?_succ]
      have hrec := ih j (Nat.lt_of_succ_lt_succ hj)
        (by simpa using hpj)
        (fun k hk => by
          have := hfirst (k + 1) (Nat.succ_lt_succ hk)
          simpa using this)
      rw [hrec]
      rfl

/-- C6 counterexample: kept survey rows at 0, 0.002, 0.004 and 0.044 km.
The single large gap (0.04 km) is exactly 20 times the median gap
(0.002 km), yet the series is not truncated, because the gap does not
exceed the absolute 0.1 km floor of the threshold
`max(10 * median, 0.1)` — all 4 rows survive where the claim demands 3. -/
theorem C6_survey_gap_counterexample :
    surveyClean [(0, 10), (1/500, 11), (1/250, 12), (11/250, 13)]
        = [(0, 10), (1/500, 11), (1/250, 12), (11/250, 13)] ∧
      gapsOf (dedupRows none
          (sortRows [(0, 10), (1/500, 11), (1/250, 12), (11/250, 13)]))
        = [1/500, 1/500, 1/25] ∧
      (1/25 : ℚ) = 20 * medianQ [1/500, 1/500, 1/25] ∧
      ¬ (surveyClean [(0, 10), (1/500, 11), (1/250, 12), (11/250, 13)]).length
          = 3 := by
  have hsort : sortRows [((0:ℚ), (10:ℚ)), (1/500, 11), (1/250, 12), (11/250, 13)]
      = [(0, 10), (1/500, 11), (1/250, 12), (11/250, 13)] := by
    norm_num [sortRows, List.insertionSort, List.orderedInsert]
  have hdedup : dedupRows none
      [((0:ℚ), (10:ℚ)), (1/500, 11), (1/250, 12), (11/250, 13)]
      = [(0, 10), (1/500, 11), (1/250, 12), (11/250, 13)] := by
    norm_num [dedupRows]
  have hgaps : gapsOf [((0:ℚ), (10:ℚ)), (1/500, 11), (1/250, 12), (11/250, 13)]
      = [1/500, 1/500, 1/25] := by
    norm_num [gapsOf]
  have hmed : medianQ [1/500, 1/500, 1/25] = 1/500 := by
    norm_num [medianQ, List.insertionSort, List.orderedInsert]
  have hfind : ([1/500, 1/500, 1/25] : List ℚ).findIdx?
      (fun g => decide (max (10 * medianQ [1/500, 1/500, 1/25]) (1/10) < g))
      = none := by
    rw [hmed]
    norm_num [List.findIdx?_cons, List.findIdx?_succ]
  have hclean : surveyClean [(0, 10), (1/500, 11), (1/250, 12), (11/250, 13)]
      = [(0, 10), (1/500, 11), (1/250, 12), (11/250, 13)] := by
    unfold surveyClean gapCut
    rw [hsort, hdedup]
    rw [if_neg (by norm_num)]
    rw [hgaps]
    rw [if_neg (by norm_num)]
    rw [hfind]
  refine ⟨hclean, by rw [hsort, hdedup, hgaps], by rw [hmed]; norm_num, ?_⟩
  rw [hclean]
  norm_num

/-- C6 amended: after sorting and deduplication, if the gap at index `j` is
the first one strictly exceeding `max(10 * median gap, 0.1)` — the 0.1 km
absolute floor is part of the trigger, so a gap of 20 times the median
qualifies only when it also exceeds 0.1 km — then the series is truncated
immediately before that gap: exactly the `j + 1` rows preceding it survive,
unchanged. -/
theorem C6_survey_gap_truncation (rows : List (ℚ × ℚ)) (j : ℕ)
    (hj : j < (gapsOf (dedupRows none (sortRows rows))).length)
    (hgap : max (10 * medianQ (gapsOf (dedupRows none (sortRows rows)))) (1/10)
      < (gapsOf (dedupRows none (sortRows rows))).getD j 0)
    (hfirst : ∀ k, k < j →
      (gapsOf (dedupRows none (sortRows rows))).getD k 0
        ≤ max (10 * medianQ (gapsOf (dedupRows none (sortRows rows)))) (1/10)) :
    surveyClean rows = (dedupRows none (sortRows rows)).take (j + 1) ∧
      (surveyClean rows).length = j + 1 ∧
      ∀ k, k ≤ j → (surveyClean rows).getD k (0, 0)
        = (dedupRows none (sortRows rows)).getD k (0, 0) := by
  set cleaned := dedupRows none (sortRows rows) with hcleaned
  set gs := gapsOf cleaned with hgs
  have hglen : gs.length = cleaned.length - 1 := by
    rw [hgs]; exact gapsOf_length cleaned
  have hlen2 : 2 ≤ cleaned.length := by omega
  have hmain : surveyClean rows = cleaned.take (j + 1) := by
    unfold surveyClean gapCut
    rw [← hcleaned, ← hgs]
    rw [if_neg (by omega)]
    rw [if_neg (by
      intro hemp
      rw [List.isEmpty_iff] at hemp
      rw [hemp] at hj
      simp at hj)]
    rw [findIdx?_first _ gs j hj (by simpa using hgap)
      (fun k hk => by simpa using not_lt.mpr (hfirst k hk))]
  have hjlen : j + 1 ≤ cleaned.length := by omega
  refine ⟨hmain, ?_, ?_⟩
  · rw [hmain, List.length_take]
    omega
  · intro k hk
    rw [hmain]
    have hk1 : k < j + 1 := Nat.lt_succ_of_le hk
    rw [List.getD_eq_getElem?_getD, List.getD_eq_getElem?_getD]
    simp [List.getElem?_take, hk1]

/-- C6 witness: kept rows at 0, 0.01, 0.02 and 1 km; median gap 0.01, the
0.98 km gap at index 2 exceeds `max(0.1, 0.1)`, so only the first 3 rows
survive. -/
theorem C6_survey_gap_witness :
    (2 < (gapsOf (dedupRows none
          (sortRows [(0, 5), (1/100, 6), (1/50, 7), (1, 8)]))).length ∧
      max (10 * medianQ (gapsOf (dedupRows none
          (sortRows [(0, 5), (1/100, 6), (1/50, 7), (1, 8)])))) (1/10)
        < (gapsOf (dedupRows none
          (sortRows [(0, 5), (1/100, 6), (1/50, 7), (1, 8)]))).getD 2 0) ∧
      surveyClean [(0, 5), (1/100, 6), (1/50, 7), (1, 8)]
        = (dedupRows none (sortRows [(0, 5), (1/100, 6), (1/50, 7), (1, 8)])).take 3 ∧
      (surveyClean [(0, 5), (1/100, 6), (1/50, 7), (1, 8)]).length = 3 ∧
      ∀ k, k ≤ 2 → (surveyClean [(0, 5), (1/100, 6), (1/50, 7), (1, 8)]).getD k (0, 0)
        = (dedupRows none (sortRows [(0, 5), (1/100, 6), (1/50, 7), (1, 8)])).getD k (0, 0) := by
  have hsort : sortRows [((0:ℚ), (5:ℚ)), (1/100, 6), (1/50, 7), (1, 8)]
      = [(0, 5), (1/100, 6), (1/50, 7), (1, 8)] := by
    norm_num [sortRows, List.insertionSort, List.orderedInsert]
  have hdedup : dedupRows none [((0:ℚ), (5:ℚ)), (1/100, 6), (1/50, 7), (1, 8)]
      = [(0, 5), (1/100, 6), (1/50, 7), (1, 8)] := by
    norm_num [dedupRows]
  have hgaps : gapsOf [((0:ℚ), (5:ℚ)), (1/100, 6), (1/50, 7), (1, 8)]
      = [1/100, 1/100, 49/50] := by
    norm_num [gapsOf]
  have hmed : medianQ [1/100, 1/100, 49/50] = 1/100 := by
    norm_num [medianQ, List.insertionSort, List.orderedInsert]
  have h1 : (2:ℕ) < (gapsOf (dedupRows none
      (sortRows [(0, 5), (1/100, 6), (1/50, 7), (1, 8)]))).length := by
    rw [hsort, hdedup, hgaps]; norm_num
  have h2 : max (10 * medianQ (gapsOf (dedupRows none
      (sortRows [(0, 5), (1/100, 6), (1/50, 7), (1, 8)])))) (1/10)
      < (gapsOf (dedupRows none
      (sortRows [(0, 5), (1/100, 6), (1/50, 7), (1, 8)]))).getD 2 0 := by
    rw [hsort, hdedup, hgaps, hmed]; norm_num
  have h3 : ∀ k, k < 2 →
      (gapsOf (dedupRows none
        (sortRows [(0, 5), (1/100, 6), (1/50, 7), (1, 8)]))).getD k 0
        ≤ max (10 * medianQ (gapsOf (dedupRows none
        (sortRows [(0, 5), (1/100, 6), (1/50, 7), (1, 8)])))) (1/10) := by
    intro k hk
    rw [hsort, hdedup, hgaps, hmed]
    interval_cases k <;> norm_num
  exact ⟨⟨h1, h2⟩,
    C6_survey_gap_truncation [(0, 5), (1/100, 6), (1/50, 7), (1, 8)] 2 h1 h2 h3⟩

/-- The slope loop emits one slope per consecutive pair. -/
lemma slopesAux_length :
    ∀ (l : List (ℚ × ℚ)) (pe pd : ℚ) (acc : List ℚ),
      (slopesAux pe pd l acc).length = acc.length + l.length := by
  intro l
  induction l with
  | nil => intro pe pd acc; simp [slopesAux]
  | cons ed rest ih =>
    intro pe pd acc
    simp only [slopesAux]
    rw [ih]
    simp
    omega

/-- The slope pass never touches the elevation array. -/
lemma computeSlopes_elevations (s : SourceData) :
    (computeSlopes s).elevations = s.elevations := by
  simp only [computeSlopes]
  split
  · split <;> rfl
  · rfl

/-- The slope pass never touches the distance array. -/
lemma computeSlopes_distances (s : SourceData) :
    (computeSlopes s).distances = s.distances := by
  simp only [computeSlopes]
  split
  · split <;> rfl
  · rfl

/-- The slope pass never touches the availability flag. -/
lemma computeSlopes_available (s : SourceData) :
    (computeSlopes s).available = s.available := by
  simp only [computeSlopes]
  split
  · split <;> rfl
  · rfl

/-- Length of the slope array produced for an available multi-point series:
one leading zero plus one slope per consecutive pair of the truncated
arrays. -/
lemma computeSlopes_slopes_length (s : SourceData) (hav : s.available = true)
    (h2 : 1 < s.elevations.length) :
    (computeSlopes s).slopes.length
      = max 1 (min s.elevations.length s.distances.length) := by
  simp only [computeSlopes]
  rw [if_pos ⟨by simp [hav], h2⟩]
  split
  · rename_i heq
    have hz := congrArg List.length heq
    simp only [List.length_zip, List.length_take, List.length_map,
      List.length_nil] at hz
    simp only [List.length_cons, List.length_nil]
    omega
  · rename_i ed0 rest heq
    have hz := congrArg List.length heq
    simp only [List.length_zip, List.length_take, List.length_map,
      List.length_cons] at hz
    simp only [List.length_cons, slopesAux_length, List.length_nil]
    omega

/-- C5 counterexample: trail with 2 coordinates (`distances_km = [0, 1]`),
GPX unavailable, survey source with 5 rows.  The Overall series built by the
endpoint is available with 5 elevations but only 2 distances (and 2 slopes),
violating the identical-length invariant. -/
theorem C5_overall_length_counterexample :
    ((sourcesPipeline
        [⟨false, [], [], []⟩,
         ⟨true, [10, 11, 12, 13, 14], [0, 1/5, 2/5, 3/5, 4/5], []⟩]
        [0, 1]).getD 2 ⟨false, [], [], []⟩).available = true ∧
      ((sourcesPipeline
        [⟨false, [], [], []⟩,
         ⟨true, [10, 11, 12, 13, 14], [0, 1/5, 2/5, 3/5, 4/5], []⟩]
        [0, 1]).getD 2 ⟨false, [], [], []⟩).elevations.length = 5 ∧
      ((sourcesPipeline
        [⟨false, [], [], []⟩,
         ⟨true, [10, 11, 12, 13, 14], [0, 1/5, 2/5, 3/5, 4/5], []⟩]
        [0, 1]).getD 2 ⟨false, [], [], []⟩).distances.length = 2 ∧
      (5 : ℕ) ≠ 2 := by
  have hover : mkOverall
      [⟨false, [], [], []⟩,
       ⟨true, [10, 11, 12, 13, 14], [0, 1/5, 2/5, 3/5, 4/5], []⟩]
      [0, 1] = ⟨true, [10, 11, 12, 13, 14], [0, 1], []⟩ := by
    simp only [mkOverall, List.filter]
    norm_num [List.range_succ]
  have hout : (sourcesPipeline
      [⟨false, [], [], []⟩,
       ⟨true, [10, 11, 12, 13, 14], [0, 1/5, 2/5, 3/5, 4/5], []⟩]
      [0, 1]).getD 2 ⟨false, [], [], []⟩
      = computeSlopes ⟨true, [10, 11, 12, 13, 14], [0, 1], []⟩ := by
    simp only [sourcesPipeline, hover, List.map]
    rfl
  rw [hout, computeSlopes_elevations, computeSlopes_distances,
    computeSlopes_available]
  norm_num

/-- C5 amended: an available series whose elevation and distance arrays
already have equal length (at least 2) does leave the slope pass with all
three arrays of identical length; the invariant fails in general — the
Overall series can pair more elevations than the trail has distance
entries, and a one-point series receives no slope array. -/
theorem C5_equal_length_series (s : SourceData) (hav : s.available = true)
    (heq : s.elevations.length = s.distances.length)
    (h2 : 2 ≤ s.elevations.length) :
    (computeSlopes s).elevations.length = (computeSlopes s).slopes.length ∧
      (computeSlopes s).distances.length = (computeSlopes s).slopes.length := by
  have he := computeSlopes_elevations s
  have hd := computeSlopes_distances s
  have hs := computeSlopes_slopes_length s hav (by omega)
  rw [he, hd, hs, ← heq]
  omega

/-- C5 witness: an available 2-point series with matching arrays. -/
theorem C5_equal_length_witness :
    ((⟨true, [1, 2], [0, 1], []⟩ : SourceData).available = true ∧
        (⟨true, [1, 2], [0, 1], []⟩ : SourceData).elevations.length
          = (⟨true, [1, 2], [0, 1], []⟩ : SourceData).distances.length) ∧
      (computeSlopes ⟨true, [1, 2], [0, 1], []⟩).elevations.length
          = (computeSlopes ⟨true, [1, 2], [0, 1], []⟩).slopes.length ∧
        (computeSlopes ⟨true, [1, 2], [0, 1], []⟩).distances.length
          = (computeSlopes ⟨true, [1, 2], [0, 1], []⟩).slopes.length :=
  ⟨⟨rfl, rfl⟩,
    C5_equal_length_series ⟨true, [1, 2], [0, 1], []⟩ rfl rfl (by decide)⟩

/-- The scoring loop's tracked overlap is the running maximum of the scored
records' overlap fractions. -/
lemma matchFold_snd (tb : BBox) (harea : 0 < tb.area) :
    ∀ (l : List LidarRecord) (b : Option LidarRecord) (v : ℚ),
      (l.foldl (matchStep tb) (b, v)).2
        = l.foldl (fun a r => match r.bounds with
            | none => a
            | some lb => max a (overlapFrac tb lb)) v := by
  intro l
  induction l with
  | nil => intro b v; rfl
  | cons r l ih =>
    intro b v
    simp only [List.foldl_cons]
    cases hb : r.bounds with
    | none => simp only [matchStep, hb]; exact ih b v
    | some lb =>
      simp only [matchStep, hb]
      rw [if_pos harea]
      by_cases hlt : v < overlapFrac tb lb
      · rw [if_pos hlt, ih, max_eq_right (le_of_lt hlt)]
      · rw [if_neg hlt, ih, max_eq_left (not_lt.mp hlt)]

/-- Whenever the loop's tracked best record is `some r`, that record came
from the initial state or the catalog suffix, has stored bounds, and its
overlap fraction is exactly the tracked overlap. -/
lemma matchFold_inv (tb : BBox) :
    ∀ (l : List LidarRecord) (b : Option LidarRecord) (v : ℚ),
      (∀ x, b = some x → x.bounds.isSome = true ∧ fracOf tb x = v) →
      ∀ r, (l.foldl (matchStep tb) (b, v)).1 = some r →
        (b = some r ∨ r ∈ l) ∧ r.bounds.isSome = true ∧
          fracOf tb r = (l.foldl (matchStep tb) (b, v)).2 := by
  intro l
  induction l with
  | nil =>
    intro b v hb r hr
    simp only [List.foldl_nil] at hr ⊢
    exact ⟨Or.inl hr, hb r hr⟩
  | cons q l ih =>
    intro b v hb r hr
    simp only [List.foldl_cons] at hr ⊢
    cases hq : q.bounds with
    | none =>
      simp only [matchStep, hq] at hr ⊢
      obtain ⟨hmem, hrest⟩ := ih b v hb r hr
      exact ⟨hmem.imp id (List.mem_cons_of_mem q), hrest⟩
    | some lb =>
      simp only [matchStep, hq] at hr ⊢
      by_cases haq : 0 < tb.area
      · rw [if_pos haq] at hr ⊢
        by_cases hlt : v < overlapFrac tb lb
        · rw [if_pos hlt] at hr ⊢
          obtain ⟨hmem, hrest⟩ := ih (some q) (overlapFrac tb lb)
            (fun x hx => by
              obtain rfl : q = x := by injection hx
              exact ⟨by simp [hq], by simp [fracOf, hq]⟩) r hr
          refine ⟨?_, hrest⟩
          rcases hmem with h | h
          · obtain rfl : q = r := by injection h
            exact Or.inr (List.mem_cons_self q l)
          · exact Or.inr (List.mem_cons_of_mem q h)
        · rw [if_neg hlt] at hr ⊢
          obtain ⟨hmem, hrest⟩ := ih b v hb r hr
          exact ⟨hmem.imp id (List.mem_cons_of_mem q), hrest⟩
      · rw [if_neg haq] at hr ⊢
        obtain ⟨hmem, hrest⟩ := ih b v hb r hr
        exact ⟨hmem.imp id (List.mem_cons_of_mem q), hrest⟩

/-- If the loop never picked a record, the tracked overlap never moved. -/
lemma matchFold_none (tb : BBox) :
    ∀ (l : List LidarRecord) (b : Option LidarRecord) (v : ℚ),
      (l.foldl (matchStep tb) (b, v)).1 = none →
        b = none ∧ (l.foldl (matchStep tb) (b, v)).2 = v := by
  intro l
  induction l with
  | nil => intro b v h; exact ⟨h, rfl⟩
  | cons q l ih =>
    intro b v h
    simp only [List.foldl_cons] at h ⊢
    cases hq : q.bounds with
    | none =>
      simp only [matchStep, hq] at h ⊢
      exact ih b v h
    | some lb =>
      simp only [matchStep, hq] at h ⊢
      by_cases haq : 0 < tb.area
      · rw [if_pos haq] at h ⊢
        by_cases hlt : v < overlapFrac tb lb
        · rw [if_pos hlt] at h ⊢
          obtain ⟨habs, _⟩ := ih (some q) (overlapFrac tb lb) h
          exact absurd habs (by simp)
        · rw [if_neg hlt] at h ⊢
          exact ih b v h
      · rw [if_neg haq] at h ⊢
        exact ih b v h

/-- The `maxFrac` value is the loop's final tracked overlap for the real initial
state. -/
lemma maxFrac_eq_fold (tb : BBox) (harea : 0 < tb.area)
    (files : List LidarRecord) :
    (files.foldl (matchStep tb) (none, 0)).2 = maxFrac tb files :=
  matchFold_snd tb harea files none 0

/-- C7: point-cloud matching.  (a) A record directly associated with the
requested trail id — the first one in catalog order — is returned
immediately.  (b) Otherwise, whenever a record is returned it is a
known-bounds catalog record realising the maximum overlap fraction, which
strictly exceeds the 2% threshold; a maximum above the threshold guarantees
a record is returned; a maximum at or below it yields `None`. -/
theorem C7_lidar_matching (files : List LidarRecord) (coords : List (ℚ × ℚ))
    (t : ℤ) (harea : 0 < (bboxOfCoords coords).area) :
    (∀ r, files.find? (fun x => x.trailId == some t) = some r →
        findMatchingLidarFile files coords (some t) = some r) ∧
      (files.find? (fun x => x.trailId == some t) = none →
        (∀ r, findMatchingLidarFile files coords (some t) = some r →
            r ∈ files ∧ r.bounds.isSome = true ∧
              fracOf (bboxOfCoords coords) r = maxFrac (bboxOfCoords coords) files ∧
              1/50 < maxFrac (bboxOfCoords coords) files) ∧
          (1/50 < maxFrac (bboxOfCoords coords) files →
            ∃ r, findMatchingLidarFile files coords (some t) = some r) ∧
          (maxFrac (bboxOfCoords coords) files ≤ 1/50 →
            findMatchingLidarFile files coords (some t) = none)) := by
  set tb := bboxOfCoords coords with htb
  constructor
  · intro r hfind
    have hne : files.isEmpty = false := by
      cases files with
      | nil => simp at hfind
      | cons a l => rfl
    simp only [findMatchingLidarFile, hne, Bool.false_eq_true, if_false, hfind]
  · intro hnone
    have hsel : findMatchingLidarFile files coords (some t)
        = selectBest (files.foldl (matchStep tb) (none, 0)) := by
      cases hfe : files.isEmpty with
      | true =>
        rw [List.isEmpty_iff] at hfe
        subst hfe
        simp [findMatchingLidarFile, selectBest, matchStep]
      | false =>
        simp only [findMatchingLidarFile, hfe, Bool.false_eq_true, if_false,
          hnone, ← htb]
    have hmax := maxFrac_eq_fold tb harea files
    refine ⟨?_, ?_, ?_⟩
    · intro r hr
      rw [hsel] at hr
      unfold selectBest at hr
      cases hb : (files.foldl (matchStep tb) (none, 0)).1 with
      | none => rw [hb] at hr; exact absurd hr (by simp)
      | some q =>
        rw [hb] at hr
        dsimp only at hr
        by_cases hthr : 1/50 < (files.foldl (matchStep tb) (none, 0)).2
        · rw [if_pos hthr] at hr
          obtain rfl : q = r := by injection hr
          obtain ⟨hmem, hbounds, hfrac⟩ :=
            matchFold_inv tb files none 0 (by simp) q hb
          rcases hmem with h | h
          · exact absurd h (by simp)
          · exact ⟨h, hbounds, by rw [hfrac, hmax], by rw [← hmax]; exact hthr⟩
        · rw [if_neg hthr] at hr
          exact absurd hr (by simp)
    · intro hthr
      rw [hsel]
      unfold selectBest
      cases hb : (files.foldl (matchStep tb) (none, 0)).1 with
      | none =>
        obtain ⟨-, hv⟩ := matchFold_none tb files none 0 hb
        rw [hv] at hmax
        rw [← hmax] at hthr
        norm_num at hthr
      | some q =>
        dsimp only
        rw [if_pos (by rw [hmax]; exact hthr)]
        exact ⟨q, rfl⟩
    · intro hthr
      rw [hsel]
      unfold selectBest
      cases hb : (files.foldl (matchStep tb) (none, 0)).1 with
      | none => rfl
      | some q =>
        dsimp only
        rw [if_neg (by rw [hmax]; exact not_lt.mpr hthr)]

/-- C7 witness: a one-record catalog with known bounds overlapping a quarter
of the trail bbox, requested trail id 7 with no direct association. -/
theorem C7_lidar_matching_witness :
    0 < (bboxOfCoords [(0, 0), (10, 10)]).area ∧
      ((∀ r, ([⟨1, none, some ⟨0, 5, 0, 5⟩⟩] : List LidarRecord).find?
            (fun x => x.trailId == some 7) = some r →
          findMatchingLidarFile [⟨1, none, some ⟨0, 5, 0, 5⟩⟩]
            [(0, 0), (10, 10)] (some 7) = some r) ∧
        (([⟨1, none, some ⟨0, 5, 0, 5⟩⟩] : List LidarRecord).find?
            (fun x => x.trailId == some 7) = none →
          (∀ r, findMatchingLidarFile [⟨1, none, some ⟨0, 5, 0, 5⟩⟩]
              [(0, 0), (10, 10)] (some 7) = some r →
            r ∈ ([⟨1, none, some ⟨0, 5, 0, 5⟩⟩] : List LidarRecord) ∧
              r.bounds.isSome = true ∧
              fracOf (bboxOfCoords [(0, 0), (10, 10)]) r
                = maxFrac (bboxOfCoords [(0, 0), (10, 10)])
                    [⟨1, none, some ⟨0, 5, 0, 5⟩⟩] ∧
              1/50 < maxFrac (bboxOfCoords [(0, 0), (10, 10)])
                  [⟨1, none, some ⟨0, 5, 0, 5⟩⟩]) ∧
          (1/50 < maxFrac (bboxOfCoords [(0, 0), (10, 10)])
              [⟨1, none, some ⟨0, 5, 0, 5⟩⟩] →
            ∃ r, findMatchingLidarFile [⟨1, none, some ⟨0, 5, 0, 5⟩⟩]
              [(0, 0), (10, 10)] (some 7) = some r) ∧
          (maxFrac (bboxOfCoords [(0, 0), (10, 10)])
              [⟨1, none, some ⟨0, 5, 0, 5⟩⟩] ≤ 1/50 →
            findMatchingLidarFile [⟨1, none, some ⟨0, 5, 0, 5⟩⟩]
              [(0, 0), (10, 10)] (some 7) = none))) :=
  ⟨by norm_num [bboxOfCoords, BBox.area, min_def, max_def],
    C7_lidar_matching [⟨1, none, some ⟨0, 5, 0, 5⟩⟩] [(0, 0), (10, 10)] 7
      (by norm_num [bboxOfCoords, BBox.area, min_def, max_def])⟩

/-- C8: a point-cloud file whose header extent has all four of
`|x_min|, |x_max|, |y_min|, |y_max|` below 1000 is routed to the
relative-coordinate sampling branch — the profile built from the cloud's own
spatial extent by `relativeLidarExtract` (dominant-axis sort, per-segment
minimum elevation, `N = min(len(trail), 200)` segments) — and never to the
absolute k-d-tree matching branch. -/
theorem C8_relative_coordinate_routing (file : LasFile)
    (trail : List (ℚ × ℚ)) (radius : ℚ)
    (h1 : |file.xMin| < 1000) (h2 : |file.xMax| < 1000)
    (h3 : |file.yMin| < 1000) (h4 : |file.yMax| < 1000) :
    extractElevationProfile file trail radius
        = ExtractResult.relative (relativeLidarExtract file trail) ∧
      ∀ prof, extractElevationProfile file trail radius
        ≠ ExtractResult.absolute prof := by
  have hrel : isRelativeCoords file := ⟨h1, h2, h3, h4⟩
  have hmain : extractElevationProfile file trail radius
      = ExtractResult.relative (relativeLidarExtract file trail) := by
    simp only [extractElevationProfile]
    rw [if_pos hrel]
  refine ⟨hmain, fun prof hcontra => ?_⟩
  rw [hmain] at hcontra
  exact ExtractResult.noConfusion hcontra

/-- C8 witness: a 3-point cloud with extent X ∈ [-5, 5], Y ∈ [-3, 4]. -/
theorem C8_relative_coordinate_witness :
    (|(⟨-5, 5, -3, 4, [(0, 0, 1), (1, 1, 2), (2, 0, 0)], none⟩ : LasFile).xMin| < 1000 ∧
        |(⟨-5, 5, -3, 4, [(0, 0, 1), (1, 1, 2), (2, 0, 0)], none⟩ : LasFile).xMax| < 1000 ∧
        |(⟨-5, 5, -3, 4, [(0, 0, 1), (1, 1, 2), (2, 0, 0)], none⟩ : LasFile).yMin| < 1000 ∧
        |(⟨-5, 5, -3, 4, [(0, 0, 1), (1, 1, 2), (2, 0, 0)], none⟩ : LasFile).yMax| < 1000) ∧
      extractElevationProfile
          ⟨-5, 5, -3, 4, [(0, 0, 1), (1, 1, 2), (2, 0, 0)], none⟩ [(1, 2), (3, 4)] 2
        = ExtractResult.relative (relativeLidarExtract
            ⟨-5, 5, -3, 4, [(0, 0, 1), (1, 1, 2), (2, 0, 0)], none⟩ [(1, 2), (3, 4)]) ∧
      ∀ prof, extractElevationProfile
          ⟨-5, 5, -3, 4, [(0, 0, 1), (1, 1, 2), (2, 0, 0)], none⟩ [(1, 2), (3, 4)] 2
        ≠ ExtractResult.absolute prof :=
  ⟨⟨by norm_num, by norm_num, by norm_num, by norm_num⟩,
    (C8_relative_coordinate_routing
      ⟨-5, 5, -3, 4, [(0, 0, 1), (1, 1, 2), (2, 0, 0)], none⟩ [(1, 2), (3, 4)] 2
      (by norm_num) (by norm_num) (by norm_num) (by norm_num)).1,
    (C8_relative_coordinate_routing
      ⟨-5, 5, -3, 4, [(0, 0, 1), (1, 1, 2), (2, 0, 0)], none⟩ [(1, 2), (3, 4)] 2
      (by norm_num) (by norm_num) (by norm_num) (by norm_num)).2⟩

/-! #### A concrete raster scenario used to settle the claim about the
sample count of the DEM profile: one 1 m-resolution tile covering a 2-point
trail whose projected line is 10 m long. -/

def demoTile : DemTile :=
  ⟨-1, 200, -1, 1, 1, 1, 300, 3, fun _ _ => 5, -9999⟩

def demoCoords : List (ℚ × ℚ) := [(0, 0), (10, 0)]

lemma demo_relevant : findRelevantTiles [demoTile] demoCoords = [demoTile] := by
  simp only [findRelevantTiles, demoCoords, demoTile, List.map, minQ, maxQ,
    List.foldl, List.filter]
  norm_num

lemma demo_segLen : segLen (0, 0) (10, 0) = 10 := by
  unfold segLen
  norm_num
  rw [show (100 : ℝ) = 10 ^ 2 by norm_num]
  exact Real.sqrt_sq (by norm_num)

lemma demo_lineLength : lineLength demoCoords = 10 := by
  simp only [demoCoords, lineLength, demo_segLen, add_zero]

lemma demo_interpolate : interpolatePt demoCoords 0 = (0, 0) := by
  simp only [demoCoords, interpolatePt, demo_segLen]
  rw [if_pos (by norm_num : (0 : ℝ) ≤ 10)]
  rw [if_neg (by norm_num : ¬(10 : ℝ) = 0)]
  norm_num

lemma demo_samples : demSamplePoints demoCoords = [(0, 0)] := by
  simp only [demSamplePoints, demo_lineLength, arange10]
  rw [show (10 : ℝ) / 10 = 1 by norm_num, Nat.ceil_one]
  rw [show List.range 1 = [0] from rfl]
  simp only [List.map]
  rw [show interpolatePt demoCoords ((0 : ℕ) * 10 : ℝ) = interpolatePt demoCoords 0 by
    norm_num]
  rw [demo_interpolate]

lemma demo_sample_value : demSampleOne demoTile (0, 0) = some 5 := by
  simp only [demSampleOne, demoTile]
  rw [if_pos (by norm_num)]
  rw [if_pos (by constructor <;> norm_num)]
  rw [if_pos (by norm_num)]

lemma demo_extract : demExtractElevations [demoTile] demoCoords = some [5] := by
  simp only [demExtractElevations, demo_relevant, demo_samples]
  rw [if_neg (by simp)]
  simp only [List.flatMap_cons, List.flatMap_nil, List.filterMap,
    demo_sample_value, List.append_nil]
  rw [if_neg (by simp)]

/-- A `filterMap` whose function succeeds everywhere keeps the length. -/
lemma filterMap_allSome_length {α β : Type} (f : α → Option β) :
    ∀ l : List α, (∀ x ∈ l, (f x).isSome = true) →
      (l.filterMap f).length = l.length := by
  intro l
  induction l with
  | nil => intro _; rfl
  | cons a l ih =>
    intro h
    have ha := h a (List.mem_cons_self a l)
    obtain ⟨b, hb⟩ := Option.isSome_iff_exists.mp ha
    rw [List.filterMap_cons, hb]
    simp only [List.length_cons]
    rw [ih (fun x hx => h x (List.mem_cons_of_mem a hx))]

/-- A `flatMap` whose pieces all have the length of the sample list has the
product length. -/
lemma flatMap_tiles_length (samples : List (ℝ × ℝ)) :
    ∀ ts : List DemTile,
      (∀ t ∈ ts, (samples.filterMap (demSampleOne t)).length = samples.length) →
      (ts.flatMap (fun t => samples.filterMap (demSampleOne t))).length
        = ts.length * samples.length := by
  intro ts
  induction ts with
  | nil => intro _; simp
  | cons t ts ih =>
    intro h
    rw [List.flatMap_cons, List.length_append,
      h t (List.mem_cons_self t ts),
      ih (fun x hx => h x (List.mem_cons_of_mem t hx))]
    simp only [List.length_cons]
    ring

/-- C3 counterexample: a 2-coordinate trail whose projected line is 10 m
long, over a single fully covering valid tile.  The raster extraction
resamples the line at 10 m spacing and returns 1 elevation for the 2 input
coordinates, so the claimed one-sample-per-coordinate contract fails. -/
theorem C3_dem_point_count_counterexample :
    demExtractElevations [demoTile] demoCoords = some [5] ∧
      ∀ l, demExtractElevations [demoTile] demoCoords = some l →
        l.length ≠ demoCoords.length := by
  refine ⟨demo_extract, fun l hl => ?_⟩
  rw [demo_extract] at hl
  obtain rfl : ([5] : List ℚ) = l := by injection hl
  simp [demoCoords]

/-- C3 amended: the raster profile samples the interpolated trail line every
10 m rather than once per input coordinate; when at least one tile is
relevant, at least one sample point exists and every (tile, sample) pixel
read is valid, extraction succeeds with
`#relevant_tiles * ⌈line_length/10⌉` elevations — a count determined by the
trail's length in metres, not by its coordinate count. -/
theorem C3_dem_sample_count (tiles : List DemTile) (coords : List (ℚ × ℚ))
    (hrel : findRelevantTiles tiles coords ≠ [])
    (hsam : demSamplePoints coords ≠ [])
    (hall : ∀ t ∈ findRelevantTiles tiles coords,
      ∀ s ∈ demSamplePoints coords, (demSampleOne t s).isSome = true) :
    ∃ l, demExtractElevations tiles coords = some l ∧
      l.length = (findRelevantTiles tiles coords).length
        * ⌈lineLength coords / 10⌉₊ := by
  have hslen : (demSamplePoints coords).length = ⌈lineLength coords / 10⌉₊ := by
    simp only [demSamplePoints, arange10, List.length_map, List.length_range]
    simp [Function.comp_def]
  have hpieces : ∀ t ∈ findRelevantTiles tiles coords,
      ((demSamplePoints coords).filterMap (demSampleOne t)).length
        = (demSamplePoints coords).length :=
    fun t ht => filterMap_allSome_length (demSampleOne t)
      (demSamplePoints coords) (hall t ht)
  have htotal := flatMap_tiles_length (demSamplePoints coords)
    (findRelevantTiles tiles coords) hpieces
  refine ⟨(findRelevantTiles tiles coords).flatMap
    (fun t => (demSamplePoints coords).filterMap (demSampleOne t)), ?_, ?_⟩
  · simp only [demExtractElevations]
    rw [if_neg (by simpa [List.isEmpty_iff] using hrel)]
    rw [if_neg (by
      intro hemp
      rw [List.isEmpty_iff] at hemp
      have := congrArg List.length hemp
      rw [htotal] at this
      simp only [List.length_nil] at this
      rcases Nat.mul_eq_zero.mp this with h | h
      · exact hrel (List.length_eq_zero.mp h)
      · exact hsam (List.length_eq_zero.mp h))]
  · rw [htotal, hslen]

/-- C3 witness: the demo tile and 2-coordinate trail; the line is 10 m long,
so exactly `1 * ⌈10/10⌉ = 1` elevation is produced. -/
theorem C3_dem_sample_count_witness :
    (findRelevantTiles [demoTile] demoCoords ≠ [] ∧
        demSamplePoints demoCoords ≠ [] ∧
        ∀ t ∈ findRelevantTiles [demoTile] demoCoords,
          ∀ s ∈ demSamplePoints demoCoords, (demSampleOne t s).isSome = true) ∧
      ∃ l, demExtractElevations [demoTile] demoCoords = some l ∧
        l.length = (findRelevantTiles [demoTile] demoCoords).length
          * ⌈lineLength demoCoords / 10⌉₊ := by
  have h1 : findRelevantTiles [demoTile] demoCoords ≠ [] := by
    rw [demo_relevant]; simp
  have h2 : demSamplePoints demoCoords ≠ [] := by
    rw [demo_samples]; simp
  have h3 : ∀ t ∈ findRelevantTiles [demoTile] demoCoords,
      ∀ s ∈ demSamplePoints demoCoords, (demSampleOne t s).isSome = true := by
    rw [demo_relevant, demo_samples]
    intro t ht s hs
    rw [List.mem_singleton] at ht hs
    subst ht; subst hs
    rw [demo_sample_value]
    rfl
  exact ⟨⟨h1, h2, h3⟩, C3_dem_sample_count [demoTile] demoCoords h1 h2 h3⟩

end TrailHub
